import Mathlib

/-!
Verification of the cell-culture simulation engine of `unified_backend.py`
(class `CellCultureSimulation` together with `Cell`, `CellLineProfile` and
the `/api/cells/simulate` endpoint glue).

Modelling conventions (shallow embedding):
* Python floats are modelled as exact rationals `ℚ`; decimal literals such
  as `0.3`, `0.2`, `0.1` become `3/10`, `1/5`, `1/10`.
* The process-wide numpy random generator is modelled as an explicit stream
  of unit draws `u : Nat → ℚ` together with a cursor; a call
  `np.random.uniform(a, b)` consumes one draw `u` and yields `a + (b-a)*u`,
  and `np.random.random()` consumes one draw and yields it.  Draws are
  consumed in exactly the order the Python source performs them.
* `np.cos` / `np.sin` are transcendental; they are carried as components of
  an explicit environment `Env`.  Facts about daughter placement are proved
  under the hypothesis that the pair satisfies the unit-circle identity.
* `list.remove(cell)` removes by object identity in Python; since `id`
  fields are unique within a run it is modelled as removal by `id`.
* Python `round(x, n)` (round half to even at `n` decimals) is modelled
  exactly on rationals by `roundTo`.
* Python `int(x)` truncates toward zero and is modelled by `pyInt`; a
  Python `ZeroDivisionError` (for `dt = 0`) and the `KeyError` raised by
  the `CELL_LINE_DATABASE[...]` dictionary lookup are modelled with an
  `Except PyError` result.  `print` calls are I/O and are not modelled.
-/

/- Batteries marks the arithmetic on `Rat` as irreducible, which blocks
evaluation of concrete simulation runs by `decide`/`rfl`; restore the
default transparency (this affects only unfolding hints, not soundness). -/
set_option allowUnsafeReducibility true in
attribute [semireducible] Rat.mul Rat.add Rat.sub Rat.inv Rat.ofScientific

namespace UnifiedBackend

/-- Explicit random source: a stream of unit draws together with a cursor,
replacing the implicit global numpy generator. -/
structure Rng where
  stream : Nat → ℚ
  idx : Nat

/-- Consume one raw unit draw (models `np.random.random()`). -/
def Rng.next (r : Rng) : ℚ × Rng :=
  (r.stream r.idx, { stream := r.stream, idx := r.idx + 1 })

/-- Models `np.random.uniform(a, b)`: one unit draw rescaled to `[a, b)`. -/
def Rng.uniform (r : Rng) (a b : ℚ) : ℚ × Rng :=
  let p := r.next
  (a + (b - a) * p.1, p.2)

/-- Environment carrying the transcendental functions `np.cos`, `np.sin`
and the constant `np.pi`, which have no exact rational counterpart. -/
structure Env where
  cos : ℚ → ℚ
  sin : ℚ → ℚ
  pi : ℚ

/-- Round a rational to an integer, half to even, as Python `round` does. -/
def pyRoundInt (q : ℚ) : ℤ :=
  let f := ⌊q⌋
  if q - f < 1/2 then f
  else if 1/2 < q - f then f + 1
  else if f % 2 = 0 then f else f + 1

/-- Python `round(q, p)`: round to `p` decimal places, half to even. -/
def roundTo (q : ℚ) (p : ℕ) : ℚ :=
  (pyRoundInt (q * 10 ^ p) : ℚ) / 10 ^ p

/-- `round(q, 2)`. -/
def round2 (q : ℚ) : ℚ := roundTo q 2

/-- `round(q, 3)`. -/
def round3 (q : ℚ) : ℚ := roundTo q 3

/-- Python `int(q)`: truncation toward zero. -/
def pyInt (q : ℚ) : ℤ :=
  if 0 ≤ q then ⌊q⌋ else -⌊-q⌋

/-- Python exceptions surfaced by the simulation code. -/
inductive PyError where
  | keyError (k : String)
  | zeroDivisionError
deriving DecidableEq

/-- `CellLineProfile` dataclass of `unified_backend.py`. -/
structure CellLineProfile where
  name : String
  type : String
  origin : String
  doubling_time : ℚ
  adherent : Bool
  g1_duration : ℚ
  s_duration : ℚ
  g2_duration : ℚ
  m_duration : ℚ
  glucose_consumption : ℚ
  oxygen_consumption : ℚ
  lactate_production : ℚ
  drug_sensitivity : List (String × ℚ)
  growth_factor_dependence : ℚ
  contact_inhibition : ℚ
deriving DecidableEq

/-- The `'HeLa'` entry of `CELL_LINE_DATABASE`. -/
def heLa : CellLineProfile where
  name := "HeLa"
  type := "Cancer"
  origin := "Cervical carcinoma"
  doubling_time := 24
  adherent := true
  g1_duration := 10
  s_duration := 8
  g2_duration := 4
  m_duration := 2
  glucose_consumption := 5/2
  oxygen_consumption := 9/5
  lactate_production := 16/5
  drug_sensitivity := [("taxol", 17/2), ("cisplatin", 123/10), ("doxorubicin", 67/10),
    ("gemcitabine", 76/5), ("targeted", 20)]
  growth_factor_dependence := 3/5
  contact_inhibition := 1/5

/-- The `'MCF-7'` entry of `CELL_LINE_DATABASE`. -/
def mcf7 : CellLineProfile where
  name := "MCF-7"
  type := "Cancer"
  origin := "Breast adenocarcinoma"
  doubling_time := 29
  adherent := true
  g1_duration := 14
  s_duration := 9
  g2_duration := 4
  m_duration := 2
  glucose_consumption := 21/10
  oxygen_consumption := 3/2
  lactate_production := 14/5
  drug_sensitivity := [("taxol", 31/5), ("cisplatin", 37/2), ("doxorubicin", 43/10),
    ("gemcitabine", 221/10), ("targeted", 17/2)]
  growth_factor_dependence := 4/5
  contact_inhibition := 1/2

/-- The `'A549'` entry of `CELL_LINE_DATABASE`. -/
def a549 : CellLineProfile where
  name := "A549"
  type := "Cancer"
  origin := "Lung carcinoma"
  doubling_time := 22
  adherent := true
  g1_duration := 9
  s_duration := 7
  g2_duration := 4
  m_duration := 2
  glucose_consumption := 14/5
  oxygen_consumption := 21/10
  lactate_production := 7/2
  drug_sensitivity := [("taxol", 21/2), ("cisplatin", 79/5), ("doxorubicin", 89/10),
    ("gemcitabine", 123/10), ("targeted", 25)]
  growth_factor_dependence := 7/10
  contact_inhibition := 3/10

/-- The `'HEK293'` entry of `CELL_LINE_DATABASE`. -/
def hek293 : CellLineProfile where
  name := "HEK293"
  type := "Normal"
  origin := "Embryonic kidney"
  doubling_time := 20
  adherent := true
  g1_duration := 8
  s_duration := 7
  g2_duration := 3
  m_duration := 2
  glucose_consumption := 9/5
  oxygen_consumption := 13/10
  lactate_production := 2
  drug_sensitivity := [("taxol", 15), ("cisplatin", 25), ("doxorubicin", 18),
    ("gemcitabine", 30), ("targeted", 50)]
  growth_factor_dependence := 1/2
  contact_inhibition := 7/10

/-- `CELL_LINE_DATABASE` as an association list (Python dict, keyed by name). -/
def CELL_LINE_DATABASE : List (String × CellLineProfile) :=
  [("HeLa", heLa), ("MCF-7", mcf7), ("A549", a549), ("HEK293", hek293)]

/-- Dictionary lookup `CELL_LINE_DATABASE[name]` (None on a missing key). -/
def lookupCellLine (nm : String) : Option CellLineProfile :=
  CELL_LINE_DATABASE.lookup nm

/-- The `Cell` object of `unified_backend.py`: one agent's mutable state. -/
structure Cell where
  id : Nat
  x : ℚ
  y : ℚ
  radius : ℚ
  cell_line : CellLineProfile
  alive : Bool
  health : ℚ
  phase : String
  phase_progress : ℚ
  atp_level : ℚ
  glucose_internal : ℚ
  oxygen_level : ℚ
  division_count : Nat
  can_divide : Bool
  apoptotic : Bool
  necrotic : Bool
deriving DecidableEq

/-- `Cell.__init__(cell_id, x, y, cell_line)`: the five random draws occur
in source order (radius, health, atp, glucose, oxygen). -/
def Cell.init (cell_id : Nat) (x y : ℚ) (cell_line : CellLineProfile) (rng : Rng) :
    Cell × Rng :=
  let (dr, rng1) := rng.uniform (-2) 2
  let (h0, rng2) := rng1.uniform (9/10) 1
  let (a0, rng3) := rng2.uniform (4/5) 1
  let (g0, rng4) := rng3.uniform (7/10) 1
  let (o0, rng5) := rng4.uniform (7/10) 1
  ({ id := cell_id, x := x, y := y, radius := 10 + dr, cell_line := cell_line,
     alive := true, health := h0, phase := "G1", phase_progress := 0,
     atp_level := a0, glucose_internal := g0, oxygen_level := o0,
     division_count := 0, can_divide := true,
     apoptotic := false, necrotic := false }, rng5)

/-- `experimentParams` sub-dictionary of the request parameters. -/
structure ExperimentParams where
  initialCells : ℤ
  duration : ℚ
  timeInterval : ℚ

/-- The request parameters consumed by `CellCultureSimulation`. -/
structure SimParams where
  cellLineName : String
  experimentParams : ExperimentParams

/-- One sampled snapshot (`data_point` dict of `_collect_data`). -/
structure DataPoint where
  time : ℚ
  total : ℕ
  viable : ℕ
  viability : ℚ
  avg_health : ℚ
  avg_atp : ℚ
deriving DecidableEq

/-- Mutable state of a `CellCultureSimulation` instance. -/
structure SimState where
  cell_line : CellLineProfile
  cells : List Cell
  next_id : ℕ
  time : ℚ
  results : List DataPoint

/-- `cycle_length = g1 + s + g2 + m` as computed inside `run`. -/
def cycleLength (prof : CellLineProfile) : ℚ :=
  prof.g1_duration + prof.s_duration + prof.g2_duration + prof.m_duration

/-- Result of processing a single tracked cell in one tick of `run`:
the (possibly mutated) cell, an optional daughter queued for addition,
whether the cell was queued for removal, and the threaded generator and
id counter. -/
structure StepOut where
  cell : Cell
  daughter : Option Cell
  removeFlag : Bool
  rng : Rng
  nid : ℕ

/-- One iteration of the `for cell in self.cells` body of
`CellCultureSimulation.run`: skip dead cells, apply metabolic drift,
advance the cycle, attempt division (guarded by updated progress, the
tick-start population size `popLen` and `can_divide`), then the death
trigger with its single removal trial. -/
def stepCell (env : Env) (prof : CellLineProfile) (dt : ℚ) (popLen : ℕ)
    (cell : Cell) (rng : Rng) (nid : ℕ) : StepOut :=
  if cell.alive = false then
    { cell := cell, daughter := none, removeFlag := false, rng := rng, nid := nid }
  else
    let (u1, rng1) := rng.uniform (-(1/50)) (1/50)
    let atp1 := max 0 (cell.atp_level + u1)
    let (u2, rng2) := rng1.uniform (-(1/100)) (1/100)
    let health1 := max 0 (min 1 (cell.health + u2))
    let pp1 := cell.phase_progress + dt / cycleLength prof
    let cell1 := { cell with
      atp_level := atp1, health := health1, phase_progress := pp1 }
    let divOut : Cell × Option Cell × Rng × ℕ :=
      if 1 ≤ pp1 ∧ popLen < 5000 ∧ cell1.can_divide = true then
        let (u3, rng3) := rng2.next
        if u3 < 3/10 then
          let (angle, rng4) := rng3.uniform 0 (2 * env.pi)
          let offset := cell1.radius * (5/2)
          let (d0, rng5) := Cell.init nid (cell1.x + offset * env.cos angle)
            (cell1.y + offset * env.sin angle) prof rng4
          let d1 := { d0 with division_count := cell1.division_count + 1 }
          ({ cell1 with phase_progress := 0 }, some d1, rng5, nid + 1)
        else (cell1, none, rng3, nid)
      else (cell1, none, rng2, nid)
    let cell2 := divOut.1
    let daughter := divOut.2.1
    let rng6 := divOut.2.2.1
    let nid2 := divOut.2.2.2
    if cell2.health < (1/10 : ℚ) then
      let (u5, rng7) := rng6.next
      { cell := { cell2 with alive := false }, daughter := daughter,
        removeFlag := decide (u5 < 1/5), rng := rng7, nid := nid2 }
    else
      { cell := cell2, daughter := daughter, removeFlag := false,
        rng := rng6, nid := nid2 }

/-- Accumulated effect of the per-cell pass of one tick: the mutated
cells in iteration order, `cells_to_add`, the ids of `cells_to_remove`,
and the threaded generator and id counter. -/
structure ProcOut where
  processed : List Cell
  toAdd : List Cell
  toRemove : List ℕ
  rng : Rng
  nid : ℕ

/-- The full `for cell in self.cells` pass of one tick.  `popLen` is the
tick-start population size: additions and removals are deferred, so
`len(self.cells)` is constant during the pass. -/
def processCells (env : Env) (prof : CellLineProfile) (dt : ℚ) (popLen : ℕ) :
    List Cell → Rng → ℕ → ProcOut
  | [], rng, nid =>
      { processed := [], toAdd := [], toRemove := [], rng := rng, nid := nid }
  | c :: cs, rng, nid =>
      let s := stepCell env prof dt popLen c rng nid
      let rest := processCells env prof dt popLen cs s.rng s.nid
      { processed := s.cell :: rest.processed,
        toAdd := match s.daughter with
          | some d => d :: rest.toAdd
          | none => rest.toAdd,
        toRemove := if s.removeFlag then s.cell.id :: rest.toRemove else rest.toRemove,
        rng := rest.rng,
        nid := rest.nid }

/-- One tick of the `for step in range(steps)` loop body, up to (but not
including) sampling: advance time by `dt`, run the per-cell pass, then
apply the queued additions (`extend`) and removals (`remove`, modelled by
id since ids are unique) as one batch. -/
def doTick (env : Env) (prof : CellLineProfile) (dt : ℚ) (st : SimState)
    (rng : Rng) : SimState × Rng :=
  let p := processCells env prof dt st.cells.length st.cells rng st.next_id
  let newCells := (p.processed ++ p.toAdd).filter fun c => !(p.toRemove.contains c.id)
  ({ st with time := st.time + dt, cells := newCells, next_id := p.nid }, p.rng)

namespace CellCultureSimulation

/-- `CellCultureSimulation._collect_data`, as a pure function of the
state: note both divisions are guarded by emptiness tests exactly as in
the source (`if self.cells else 0`, `if viable else 0`). -/
def collect_data (st : SimState) : DataPoint :=
  let viable := st.cells.filter fun c => c.alive
  { time := round2 st.time
    total := st.cells.length
    viable := viable.length
    viability := round2 (if st.cells.isEmpty then 0 else
      ((viable.length : ℚ) / (st.cells.length : ℚ)) * 100)
    avg_health := round3 (if viable.isEmpty then 0 else
      ((viable.map fun c => c.health).sum) / (viable.length : ℚ))
    avg_atp := round3 (if viable.isEmpty then 0 else
      ((viable.map fun c => c.atp_level).sum) / (viable.length : ℚ)) }

/-- The `for step in range(steps)` loop of `run`: `i` is the current step
index, the second argument the number of remaining steps.  A snapshot is
appended after the tick whenever `step % sample_interval == 0`. -/
def runFrom (env : Env) (prof : CellLineProfile) (dt : ℚ) (si : ℕ) :
    ℕ → ℕ → SimState → Rng → SimState × Rng
  | _, 0, st, rng => (st, rng)
  | i, r + 1, st, rng =>
      let t := doTick env prof dt st rng
      let st2 := if i % si = 0 then
          { t.1 with results := t.1.results ++ [collect_data t.1] }
        else t.1
      runFrom env prof dt si (i + 1) r st2 t.2

/-- `CellCultureSimulation.run(duration, dt)`.  `steps = int(duration/dt)`
(a `ZeroDivisionError` when `dt == 0`), `sample_interval = max(1,
steps // 200)`; returns `self.results` (together with the final state and
generator, which Python keeps on the object). -/
def run (env : Env) (st : SimState) (duration dt : ℚ) (rng : Rng) :
    Except PyError (List DataPoint × SimState × Rng) :=
  if dt = 0 then .error .zeroDivisionError
  else
    let steps := (pyInt (duration / dt)).toNat
    let si := max 1 (steps / 200)
    let t := runFrom env st.cell_line dt si 0 steps st rng
    .ok (t.1.results, t.1, t.2)

/-- The seeding loop of `CellCultureSimulation.__init__`: each iteration
draws the position (x then y) and then constructs the `Cell` (five more
draws), assigning ids from `next_id` upward. -/
def mkInitialCells (prof : CellLineProfile) :
    ℕ → ℕ → Rng → List Cell × ℕ × Rng
  | 0, nid, rng => ([], nid, rng)
  | n + 1, nid, rng =>
      let (px, rng1) := rng.uniform 50 750
      let (py, rng2) := rng1.uniform 50 550
      let (c, rng3) := Cell.init nid px py prof rng2
      let rest := mkInitialCells prof n (nid + 1) rng3
      (c :: rest.1, rest.2.1, rest.2.2)

/-- `CellCultureSimulation.__init__(params)`: the dictionary lookup raises
`KeyError` for an unknown cell-line name; `range(initial_count)` of a
negative count is empty, hence `Int.toNat`.  No other validation occurs. -/
def init (p : SimParams) (rng : Rng) : Except PyError (SimState × Rng) :=
  match lookupCellLine p.cellLineName with
  | none => .error (.keyError p.cellLineName)
  | some prof =>
      let t := mkInitialCells prof p.experimentParams.initialCells.toNat 0 rng
      .ok ({ cell_line := prof, cells := t.1, next_id := t.2.1,
             time := 0, results := [] }, t.2.2)

end CellCultureSimulation

/-- The `/api/cells/simulate` endpoint body: construct the simulation from
the request parameters, then `run(duration, timeInterval)`, returning the
result series. -/
def simulateEndpoint (env : Env) (p : SimParams) (rng : Rng) :
    Except PyError (List DataPoint) :=
  match CellCultureSimulation.init p rng with
  | .error e => .error e
  | .ok t =>
      match CellCultureSimulation.run env t.1 p.experimentParams.duration
          p.experimentParams.timeInterval t.2 with
      | .error e => .error e
      | .ok out => .ok out.1

/-! Concrete instantiations used by witnesses and counterexamples. -/

/-- The all-zeros draw stream: every `uniform(a, b)` returns `a` and every
Bernoulli trial (`random() < p` for `p > 0`) succeeds. -/
def zs : ℕ → ℚ := fun _ => 0

/-- Generator over the all-zeros stream. -/
def rngZ : Rng := ⟨zs, 0⟩

/-- A concrete trig environment: the constant unit-circle point (1, 0). -/
def env0 : Env := ⟨fun _ => 1, fun _ => 0, 314/100⟩

/-- Draw stream that is 1 exactly at index 169: with one seeded HeLa cell
and `dt = 1/4`, index 169 is precisely the single removal trial drawn on
the tick the cell dies (tick 80), so that trial fails while every other
conceivable trial would succeed. -/
def streamC1 : ℕ → ℚ := fun i => if i = 169 then 1 else 0

/-- Request parameters for a HeLa run. -/
def pHeLa (n : ℤ) (dur dt : ℚ) : SimParams := ⟨"HeLa", ⟨n, dur, dt⟩⟩

/-- The cell seeded at index `i` under the all-zeros stream: position
(50, 50), radius 8, health 0.9, atp 0.8, glucose and oxygen 0.7. -/
def freshCell (i : ℕ) : Cell :=
  { id := i, x := 50, y := 50, radius := 8, cell_line := heLa, alive := true,
    health := 9/10, phase := "G1", phase_progress := 0, atp_level := 4/5,
    glucose_internal := 7/10, oxygen_level := 7/10, division_count := 0,
    can_divide := true, apoptotic := false, necrotic := false }

/-- `freshCell i` after one tick with `dt = 1` under the all-zeros stream:
atp drops by 0.02, health by 0.01, cycle progress gains 1/24. -/
def freshCell2 (i : ℕ) : Cell :=
  { freshCell i with atp_level := 39/50, health := 89/100, phase_progress := 1/24 }

/-- The single snapshot of a one-tick (`duration = dt = 1`) HeLa run
seeded with `n` cells under the all-zeros stream. -/
def freshDp (n : ℕ) : DataPoint :=
  CellCultureSimulation.collect_data
    ⟨heLa, (List.range' 0 n).map freshCell2, n, 1, []⟩

/-- The state of a simulation constructed with zero initial cells. -/
def stEmpty : SimState := ⟨heLa, [], 0, 0, []⟩

/-- A division-eligible cell used to exercise the division branch. -/
def cellW : Cell :=
  { id := 5, x := 100, y := 200, radius := 10, cell_line := heLa, alive := true,
    health := 1/2, phase := "G1", phase_progress := 1, atp_level := 1/2,
    glucose_internal := 1/2, oxygen_level := 1/2, division_count := 2,
    can_divide := true, apoptotic := false, necrotic := false }

/-- The daughter produced by `cellW` under `env0` and the all-zeros
stream: placed at distance `2.5 × 10` along direction (1, 0). -/
def cellWd : Cell :=
  { id := 9, x := 125, y := 200, radius := 8, cell_line := heLa, alive := true,
    health := 9/10, phase := "G1", phase_progress := 0, atp_level := 4/5,
    glucose_internal := 7/10, oxygen_level := 7/10, division_count := 3,
    can_divide := true, apoptotic := false, necrotic := false }

/-- A dead (alive = false) tracked cell. -/
def cellDead : Cell :=
  { id := 4, x := 60, y := 70, radius := 9, cell_line := heLa, alive := false,
    health := 0, phase := "G1", phase_progress := 1/2, atp_level := 0,
    glucose_internal := 1/2, oxygen_level := 1/2, division_count := 1,
    can_divide := true, apoptotic := false, necrotic := false }

/-- A state tracking one live and one dead cell. -/
def stMixed : SimState := ⟨heLa, [freshCell 0, cellDead], 5, 0, []⟩

end UnifiedBackend

/-! Helper lemmas. -/

namespace UnifiedBackend

open CellCultureSimulation

theorem doTick_results (env : Env) (prof : CellLineProfile) (dt : ℚ)
    (st : SimState) (rng : Rng) :
    ((doTick env prof dt st rng).1).results = st.results := rfl

theorem doTick_time (env : Env) (prof : CellLineProfile) (dt : ℚ)
    (st : SimState) (rng : Rng) :
    ((doTick env prof dt st rng).1).time = st.time + dt := rfl

theorem collect_data_time (st : SimState) :
    (collect_data st).time = round2 st.time := rfl

theorem collect_data_viable_le_total (st : SimState) :
    (collect_data st).viable ≤ (collect_data st).total :=
  List.length_filter_le _ _

theorem mkInitialCells_length (prof : CellLineProfile) :
    ∀ (n nid : ℕ) (rng : Rng), (mkInitialCells prof n nid rng).1.length = n := by
  intro n
  induction n with
  | zero => intro nid rng; rfl
  | succ m ih =>
      intro nid rng
      simp only [mkInitialCells, List.length_cons]
      rw [ih]

theorem processCells_processed_length (env : Env) (prof : CellLineProfile)
    (dt : ℚ) (popLen : ℕ) :
    ∀ (cs : List Cell) (rng : Rng) (nid : ℕ),
      (processCells env prof dt popLen cs rng nid).processed.length = cs.length := by
  intro cs
  induction cs with
  | nil => intro rng nid; rfl
  | cons c tl ih =>
      intro rng nid
      simp only [processCells, List.length_cons]
      rw [ih]

theorem stepCell_dead (env : Env) (prof : CellLineProfile) (dt : ℚ)
    (popLen : ℕ) (cell : Cell) (rng : Rng) (nid : ℕ) (h : cell.alive = false) :
    stepCell env prof dt popLen cell rng nid =
      ⟨cell, none, false, rng, nid⟩ := by
  simp [stepCell, h]

theorem stepCell_id (env : Env) (prof : CellLineProfile) (dt : ℚ)
    (popLen : ℕ) (cell : Cell) (rng : Rng) (nid : ℕ) :
    (stepCell env prof dt popLen cell rng nid).cell.id = cell.id := by
  simp only [stepCell]
  split
  · rfl
  · split_ifs <;> rfl


open CellCultureSimulation

theorem stepCell_cap_daughter_none (env : Env) (prof : CellLineProfile) (dt : ℚ)
    (popLen : ℕ) (cell : Cell) (rng : Rng) (nid : ℕ) (h : 5000 ≤ popLen) :
    (stepCell env prof dt popLen cell rng nid).daughter = none := by
  simp only [stepCell]
  split
  · rfl
  · split_ifs with h1 h2 h3 h4 h5 <;>
      first
        | rfl
        | exact absurd h1.2.1 (by omega)

theorem stepCell_phase_shape (env : Env) (prof : CellLineProfile) (dt : ℚ)
    (popLen : ℕ) (cell : Cell) (rng : Rng) (nid : ℕ) (halive : cell.alive = true) :
    ((stepCell env prof dt popLen cell rng nid).daughter = none ∧
      (stepCell env prof dt popLen cell rng nid).cell.phase_progress
        = cell.phase_progress + dt / cycleLength prof) ∨
    ((stepCell env prof dt popLen cell rng nid).daughter.isSome = true ∧
      (stepCell env prof dt popLen cell rng nid).cell.phase_progress = 0) := by
  simp only [stepCell, halive]
  split_ifs with h0 h1 h2 h3 h4 h5 h6 h7 <;>
    first
      | exact Or.inl ⟨rfl, rfl⟩
      | exact Or.inr ⟨rfl, rfl⟩
      | simp_all


theorem stepCell_daughter_shape (env : Env) (prof : CellLineProfile) (dt : ℚ)
    (popLen : ℕ) (cell : Cell) (rng : Rng) (nid : ℕ) (d : Cell)
    (hd : (stepCell env prof dt popLen cell rng nid).daughter = some d) :
    ∃ ang rng4,
      d = { (Cell.init nid (cell.x + cell.radius * (5/2) * env.cos ang)
              (cell.y + cell.radius * (5/2) * env.sin ang) prof rng4).1 with
            division_count := cell.division_count + 1 } := by
  cases halive : cell.alive with
  | false =>
      rw [stepCell_dead env prof dt popLen cell rng nid halive] at hd
      exact Option.noConfusion hd
  | true =>
      simp only [stepCell, halive, Bool.true_eq_false, if_false] at hd
      split_ifs at hd <;> (try dsimp only at hd) <;>
        first
          | exact Option.noConfusion hd
          | exact ⟨_, _, (Option.some.inj hd).symm⟩

theorem processCells_toRemove_subset (env : Env) (prof : CellLineProfile)
    (dt : ℚ) (popLen : ℕ) :
    ∀ (cs : List Cell) (rng : Rng) (nid : ℕ) (i : ℕ),
      i ∈ (processCells env prof dt popLen cs rng nid).toRemove →
        i ∈ cs.map Cell.id := by
  intro cs
  induction cs with
  | nil => intro rng nid i h; exact absurd h (by simp [processCells])
  | cons c tl ih =>
      intro rng nid i h
      simp only [processCells] at h
      simp only [List.map_cons, List.mem_cons]
      by_cases hf : (stepCell env prof dt popLen c rng nid).removeFlag
      · rw [if_pos hf] at h
        rcases List.mem_cons.1 h with h1 | h1
        · left; rw [h1, stepCell_id]
        · right; exact ih _ _ i h1
      · rw [if_neg hf] at h
        right; exact ih _ _ i h

theorem processCells_dead_mem (env : Env) (prof : CellLineProfile)
    (dt : ℚ) (popLen : ℕ) :
    ∀ (cs : List Cell) (rng : Rng) (nid : ℕ) (c : Cell),
      c ∈ cs → c.alive = false →
        c ∈ (processCells env prof dt popLen cs rng nid).processed := by
  intro cs
  induction cs with
  | nil => intro rng nid c h; exact absurd h (by simp)
  | cons a tl ih =>
      intro rng nid c h hdead
      simp only [processCells, List.mem_cons]
      rcases List.mem_cons.1 h with h1 | h1
      · left
        rw [h1, stepCell_dead env prof dt popLen a rng nid (h1 ▸ hdead)]
      · right; exact ih _ _ c h1 hdead

theorem processCells_dead_not_removed (env : Env) (prof : CellLineProfile)
    (dt : ℚ) (popLen : ℕ) :
    ∀ (cs : List Cell) (rng : Rng) (nid : ℕ) (c : Cell),
      c ∈ cs → c.alive = false → (cs.map Cell.id).Nodup →
        c.id ∉ (processCells env prof dt popLen cs rng nid).toRemove := by
  intro cs
  induction cs with
  | nil => intro rng nid c h; exact absurd h (by simp)
  | cons a tl ih =>
      intro rng nid c h hdead hnd
      have hnd' := hnd
      rw [List.map_cons, List.nodup_cons] at hnd'
      simp only [processCells]
      rcases List.mem_cons.1 h with h1 | h1
      · subst h1
        rw [stepCell_dead env prof dt popLen c rng nid hdead]
        intro hmem
        exact hnd'.1 (processCells_toRemove_subset env prof dt popLen tl _ _ _ hmem)
      · intro hmem
        have hidtl : c.id ∈ tl.map Cell.id := List.mem_map_of_mem Cell.id h1
        by_cases hf : (stepCell env prof dt popLen a rng nid).removeFlag
        · rw [if_pos hf] at hmem
          rcases List.mem_cons.1 hmem with h2 | h2
          · rw [stepCell_id] at h2
            exact hnd'.1 (h2 ▸ hidtl)
          · exact ih _ _ c h1 hdead hnd'.2 h2
        · rw [if_neg hf] at hmem
          exact ih _ _ c h1 hdead hnd'.2 hmem

theorem doTick_dead_persists (env : Env) (prof : CellLineProfile) (dt : ℚ)
    (st : SimState) (rng : Rng) (c : Cell) (hmem : c ∈ st.cells)
    (hdead : c.alive = false) (hnd : (st.cells.map Cell.id).Nodup) :
    c ∈ ((doTick env prof dt st rng).1).cells := by
  simp only [doTick]
  rw [List.mem_filter]
  constructor
  · exact List.mem_append_left _
      (processCells_dead_mem env prof dt st.cells.length st.cells rng st.next_id c hmem hdead)
  · have := processCells_dead_not_removed env prof dt st.cells.length st.cells rng
      st.next_id c hmem hdead hnd
    simpa using this

theorem doTick_no_removal_length (env : Env) (prof : CellLineProfile) (dt : ℚ)
    (st : SimState) (rng : Rng)
    (hrem : (processCells env prof dt st.cells.length st.cells rng st.next_id).toRemove = []) :
    st.cells.length ≤ ((doTick env prof dt st rng).1).cells.length := by
  simp only [doTick, hrem]
  have hlen := processCells_processed_length env prof dt st.cells.length st.cells rng st.next_id
  simp [List.contains_nil, List.filter_append, hlen]

theorem runFrom_results_mem (env : Env) (prof : CellLineProfile) (dt : ℚ)
    (si : ℕ) (P : DataPoint → Prop) (hc : ∀ st : SimState, P (collect_data st)) :
    ∀ (r i : ℕ) (st : SimState) (rng : Rng), (∀ dp ∈ st.results, P dp) →
      ∀ dp ∈ ((runFrom env prof dt si i r st rng).1).results, P dp := by
  intro r
  induction r with
  | zero => intro i st rng h dp hdp; exact h dp hdp
  | succ n ih =>
      intro i st rng h dp hdp
      simp only [runFrom] at hdp
      refine ih (i+1) _ _ ?_ dp hdp
      intro dq hdq
      by_cases hs : i % si = 0
      · rw [if_pos hs] at hdq
        try dsimp only at hdq
        rw [doTick_results] at hdq
        rcases List.mem_append.1 hdq with hq | hq
        · exact h dq hq
        · rw [List.mem_singleton.1 hq]; exact hc _
      · rw [if_neg hs] at hdq
        rw [doTick_results] at hdq
        exact h dq hdq

theorem runFrom_results_length (env : Env) (prof : CellLineProfile) (dt : ℚ)
    (si : ℕ) :
    ∀ (r i : ℕ) (st : SimState) (rng : Rng),
      ((runFrom env prof dt si i r st rng).1).results.length
        = st.results.length
          + ((List.range' i r).filter (fun s => s % si = 0)).length := by
  intro r
  induction r with
  | zero => intro i st rng; simp [runFrom]
  | succ n ih =>
      intro i st rng
      simp only [runFrom]
      rw [ih (i+1)]
      rw [List.range'_succ, List.filter_cons]
      by_cases hs : i % si = 0
      · rw [if_pos hs]
        try dsimp only
        rw [doTick_results]
        simp [hs]
        try omega
      · rw [if_neg hs]
        rw [doTick_results]
        simp [hs]

theorem runFrom_times (env : Env) (prof : CellLineProfile) (dt : ℚ) (si : ℕ) :
    ∀ (r i : ℕ) (st : SimState) (rng : Rng), st.time = (i : ℚ) * dt →
      ((runFrom env prof dt si i r st rng).1).results.map (fun dp => dp.time)
        = st.results.map (fun dp => dp.time)
          ++ ((List.range' i r).filter (fun s => s % si = 0)).map
              (fun s : ℕ => round2 (((s : ℚ) + 1) * dt)) := by
  intro r
  induction r with
  | zero => intro i st rng ht; simp [runFrom]
  | succ n ih =>
      intro i st rng ht
      have hx : round2 ((doTick env prof dt st rng).1.time)
          = round2 (((i : ℚ) + 1) * dt) := by
        rw [doTick_time, ht]; exact congrArg round2 (by ring)
      have ht2 : ((doTick env prof dt st rng).1).time = ((i + 1 : ℕ) : ℚ) * dt := by
        rw [doTick_time, ht]; push_cast; ring
      simp only [runFrom]
      rw [List.range'_succ, List.filter_cons]
      by_cases hs : i % si = 0
      · rw [if_pos hs]
        rw [ih (i+1) _ _ (by try dsimp only; exact ht2)]
        try dsimp only
        rw [doTick_results]
        simp only [List.map_append, List.map_cons, List.append_assoc,
          List.singleton_append, collect_data_time, hx]
        simp [hs]
      · rw [if_neg hs]
        rw [ih (i+1) _ _ ht2]
        rw [doTick_results]
        simp [hs]

theorem length_filter_mod (m : ℕ) (hm : 0 < m) :
    ∀ n : ℕ, ((List.range' 0 n).filter (fun s => s % m = 0)).length
      = (n + m - 1) / m := by
  intro n
  induction n with
  | zero => simp [Nat.div_eq_of_lt (by omega : m - 1 < m)]
  | succ n ih =>
      rw [List.range'_concat, List.filter_append, List.length_append, ih]
      have h1 := Nat.div_add_mod n m
      have h2 := Nat.mod_lt n hm
      have hms : m * (n / m + 1) = m * (n / m) + m := Nat.mul_succ m (n / m)
      by_cases hr : n % m = 0
      · have e1 : n + 1 + m - 1 = m * (n / m + 1) := by omega
        have e2 : n + m - 1 = (m - 1) + m * (n / m) := by omega
        rw [e1, e2, Nat.mul_div_cancel_left _ hm, Nat.add_mul_div_left _ _ hm,
          Nat.div_eq_of_lt (by omega : m - 1 < m)]
        simp [hr]
      · have e1 : n + 1 + m - 1 = (n % m) + m * (n / m + 1) := by omega
        have e2 : n + m - 1 = (n % m - 1) + m * (n / m + 1) := by omega
        rw [e1, e2, Nat.add_mul_div_left _ _ hm, Nat.add_mul_div_left _ _ hm,
          Nat.div_eq_of_lt h2, Nat.div_eq_of_lt (by omega : n % m - 1 < m)]
        simp [hr]

theorem sample_count_bound (s : ℕ) :
    (s + max 1 (s / 200) - 1) / max 1 (s / 200) ≤ 399 := by
  by_cases h : s < 200
  · rw [Nat.div_eq_of_lt h]
    simp
    omega
  · push_neg at h
    have hq1 : 1 ≤ s / 200 := (Nat.one_le_div_iff (by norm_num)).2 h
    rw [Nat.max_eq_right hq1]
    have hlt : s + s / 200 - 1 < 400 * (s / 200) := by
      have h1 := Nat.div_add_mod s 200
      have h2 : s % 200 < 200 := Nat.mod_lt s (by norm_num)
      omega
    have := (Nat.div_lt_iff_lt_mul (by omega : 0 < s / 200)).2 (by omega : s + s / 200 - 1 < 400 * (s / 200))
    omega

theorem pyRoundInt_intCast (z : ℤ) : pyRoundInt (z : ℚ) = z := by
  unfold pyRoundInt
  simp only [Int.floor_intCast, sub_self]
  norm_num

theorem round2_intCast_div (z : ℤ) : round2 ((z : ℚ) / 100) = (z : ℚ) / 100 := by
  unfold round2 roundTo
  rw [show ((10:ℚ)^2) = 100 by norm_num,
    div_mul_cancel₀ _ (by norm_num : (100:ℚ) ≠ 0), pyRoundInt_intCast]

theorem pyInt_of_nonneg (q : ℚ) (h : 0 ≤ q) : pyInt q = ⌊q⌋ := if_pos h

theorem init_err (p : SimParams) (rng : Rng)
    (hlk : lookupCellLine p.cellLineName = none) :
    CellCultureSimulation.init p rng = .error (.keyError p.cellLineName) := by
  unfold CellCultureSimulation.init
  rw [hlk]

theorem init_ok_shape (p : SimParams) (rng : Rng) (prof : CellLineProfile)
    (hlk : lookupCellLine p.cellLineName = some prof) :
    CellCultureSimulation.init p rng
      = .ok ({ cell_line := prof,
               cells := (mkInitialCells prof p.experimentParams.initialCells.toNat 0 rng).1,
               next_id := (mkInitialCells prof p.experimentParams.initialCells.toNat 0 rng).2.1,
               time := 0, results := [] },
             (mkInitialCells prof p.experimentParams.initialCells.toNat 0 rng).2.2) := by
  unfold CellCultureSimulation.init
  rw [hlk]

theorem Cell_init_zs (i : ℕ) (x y : ℚ) (idx : ℕ) :
    Cell.init i x y heLa ⟨zs, idx⟩
      = ({ id := i, x := x, y := y, radius := 8, cell_line := heLa, alive := true,
           health := 9/10, phase := "G1", phase_progress := 0, atp_level := 4/5,
           glucose_internal := 7/10, oxygen_level := 7/10, division_count := 0,
           can_divide := true, apoptotic := false, necrotic := false },
         ⟨zs, idx + 5⟩) := by
  simp only [Cell.init, Rng.uniform, Rng.next, zs]
  norm_num

theorem stepCell_fresh (pl i idx nid : ℕ) :
    stepCell env0 heLa 1 pl (freshCell i) ⟨zs, idx⟩ nid
      = ⟨freshCell2 i, none, false, ⟨zs, idx + 2⟩, nid⟩ := by
  simp only [stepCell, freshCell, freshCell2, Rng.uniform, Rng.next, zs,
    cycleLength, heLa, env0]
  norm_num

theorem processCells_fresh (pl nid : ℕ) :
    ∀ (ids : List ℕ) (idx : ℕ),
      processCells env0 heLa 1 pl (ids.map freshCell) ⟨zs, idx⟩ nid
        = ⟨ids.map freshCell2, [], [], ⟨zs, idx + 2 * ids.length⟩, nid⟩ := by
  intro ids
  induction ids with
  | nil => intro idx; simp [processCells]
  | cons a tl ih =>
      intro idx
      simp only [List.map_cons, processCells, stepCell_fresh, ih (idx + 2)]
      refine congrArg (fun k => (⟨(freshCell2 a) :: tl.map freshCell2, [], [],
        (⟨zs, k⟩ : Rng), nid⟩ : ProcOut)) ?_
      simp [List.length_cons]
      ring

theorem mkInitialCells_zs :
    ∀ (n nid idx : ℕ),
      mkInitialCells heLa n nid ⟨zs, idx⟩
        = ((List.range' nid n).map freshCell, nid + n, ⟨zs, idx + 7 * n⟩) := by
  intro n
  induction n with
  | zero => intro nid idx; simp [mkInitialCells]
  | succ m ih =>
      intro nid idx
      simp only [mkInitialCells, Rng.uniform, Rng.next, zs]
      norm_num
      rw [Cell_init_zs, ih]
      constructor
      · rw [List.range'_succ]
        rfl
      · simp only [Prod.mk.injEq, Rng.mk.injEq]
        refine ⟨by omega, trivial, by omega⟩

theorem run_fresh (n idx : ℕ) :
    CellCultureSimulation.run env0
        ⟨heLa, (List.range' 0 n).map freshCell, n, 0, []⟩ 1 1 ⟨zs, idx⟩
      = .ok ([freshDp n],
             ⟨heLa, (List.range' 0 n).map freshCell2, n, 1, [freshDp n]⟩,
             ⟨zs, idx + 2 * n⟩) := by
  unfold CellCultureSimulation.run
  rw [if_neg one_ne_zero]
  have hsteps : (pyInt ((1:ℚ) / 1)).toNat = 1 := by norm_num [pyInt]
  rw [hsteps]
  norm_num
  simp only [runFrom, doTick]
  rw [processCells_fresh]
  simp only [List.length_map, List.length_range', List.contains_nil,
    Bool.not_false, List.filter_true, List.append_nil, List.nil_append]
  norm_num [freshDp]

theorem endpoint_fresh (n : ℕ) :
    simulateEndpoint env0 (pHeLa (n : ℤ) 1 1) rngZ = .ok [freshDp n] := by
  unfold simulateEndpoint
  rw [init_ok_shape _ _ heLa (by rfl)]
  have hn : ((n : ℤ)).toNat = n := Int.toNat_natCast n
  simp only [pHeLa, hn]
  rw [show rngZ = (⟨zs, 0⟩ : Rng) from rfl, mkInitialCells_zs n 0 0]
  simp only [Nat.zero_add, Nat.add_zero]
  rw [run_fresh]

theorem init_results_nil (p : SimParams) (rng : Rng)
    (t : SimState × Rng) (h : CellCultureSimulation.init p rng = .ok t) :
    t.1.results = [] := by
  cases hlk : lookupCellLine p.cellLineName with
  | none => rw [init_err p rng hlk] at h; exact Except.noConfusion h
  | some prof =>
      rw [init_ok_shape p rng prof hlk] at h
      injection h with h'
      rw [← h']

theorem round2_hundredth (m s : ℕ) :
    round2 (((s : ℚ) + 1) * ((m : ℚ) / 100)) = ((s : ℚ) + 1) * ((m : ℚ) / 100) := by
  have h : ((s : ℚ) + 1) * ((m : ℚ) / 100) = ((((s + 1) * m : ℕ) : ℤ) : ℚ) / 100 := by
    push_cast; ring
  rw [h, round2_intCast_div]

/-! Claim theorems. -/

set_option maxRecDepth 8000

/-- C1 (corrected), counterexample: with one seeded HeLa cell, `dt = 1/4`
and the stream `streamC1` (1 at index 169, 0 elsewhere), the cell dies on
tick 80 (health 0.09 < 0.1) and its single removal trial (draw index 169,
value 1, `1 < 0.2` false) fails.  Every draw after index 169 is 0, so any
removal trial drawn on a later tick would succeed (`0 < 0.2`); yet the two
remaining snapshots still show `total = 1, viable = 0`: the dead-but-present
cell received no further removal trial, refuting the claim that a trial is
drawn on each subsequent tick. -/
theorem C1_counterexample :
    (simulateEndpoint env0 (pHeLa 1 (41/2) (1/4)) ⟨streamC1, 0⟩).toOption.map
        (fun l => l.map (fun dp => (dp.total, dp.viable)))
      = some (List.replicate 80 (1, 1) ++ [(1, 0), (1, 0)]) := by
  decide

/-- C1 (corrected), amended: a tracked cell whose `alive` flag is already
False is skipped entirely by the per-cell pass (`continue`): its state is
unchanged, it consumes no random draw, it is never queued for removal, and
(given distinct ids) it is still tracked after the tick.  The only removal
trial is the one drawn on the tick the cell dies. -/
theorem C1_dead_cells_skipped :
    (∀ (env : Env) (prof : CellLineProfile) (dt : ℚ) (popLen : ℕ) (cell : Cell)
        (rng : Rng) (nid : ℕ), cell.alive = false →
        stepCell env prof dt popLen cell rng nid = ⟨cell, none, false, rng, nid⟩)
    ∧ (∀ (env : Env) (prof : CellLineProfile) (dt : ℚ) (st : SimState) (rng : Rng)
        (c : Cell), c ∈ st.cells → c.alive = false → (st.cells.map Cell.id).Nodup →
        c ∈ ((doTick env prof dt st rng).1).cells) :=
  ⟨stepCell_dead, fun env prof dt st rng c h1 h2 h3 =>
    doTick_dead_persists env prof dt st rng c h1 h2 h3⟩

/-- Witness for `C1_dead_cells_skipped` at a concrete dead cell. -/
theorem C1_dead_cells_skipped_witness :
    stepCell env0 heLa 1 2 cellDead rngZ 5 = ⟨cellDead, none, false, rngZ, 5⟩
    ∧ cellDead ∈ ((doTick env0 heLa 1 stMixed rngZ).1).cells :=
  ⟨C1_dead_cells_skipped.1 env0 heLa 1 2 cellDead rngZ 5 rfl,
   C1_dead_cells_skipped.2 env0 heLa 1 stMixed rngZ cellDead (by decide) rfl (by decide)⟩

/-- C8 (corrected), counterexample: one seeded HeLa cell, `dt = 1/4`,
all-zeros stream.  The cell dies on tick 80 and its removal trial succeeds
(draw 0 < 0.2), so the final snapshot has `total = 0 < 1 = initial_cell_count`,
refuting `total ≥ initial_cell_count` at every tick. -/
theorem C8_counterexample :
    (simulateEndpoint env0 (pHeLa 1 (81/4) (1/4)) rngZ).toOption.map
        (fun l => l.map (fun dp => (dp.total, dp.viable)))
      = some (List.replicate 80 (1, 1) ++ [(0, 0)])
    ∧ ¬ (1 : ℕ) ≤ 0 := by
  constructor
  · decide
  · decide

/-- C8 (corrected), amended: the per-cell pass carries every tracked cell
through one-for-one, so the population shrinks only by applying a
non-empty removal queue: on a tick whose removal queue is empty the
population size does not decrease. -/
theorem C8_population_shrinks_only_by_removal :
    (∀ (env : Env) (prof : CellLineProfile) (dt : ℚ) (popLen : ℕ)
        (cs : List Cell) (rng : Rng) (nid : ℕ),
        (processCells env prof dt popLen cs rng nid).processed.length = cs.length)
    ∧ (∀ (env : Env) (prof : CellLineProfile) (dt : ℚ) (st : SimState) (rng : Rng),
        (processCells env prof dt st.cells.length st.cells rng st.next_id).toRemove = [] →
        st.cells.length ≤ ((doTick env prof dt st rng).1).cells.length) :=
  ⟨processCells_processed_length,
   fun env prof dt st rng h => doTick_no_removal_length env prof dt st rng h⟩

/-- Witness for `C8_population_shrinks_only_by_removal`. -/
theorem C8_population_shrinks_only_by_removal_witness :
    (processCells env0 heLa 1 1 [freshCell 0] rngZ 1).processed.length = 1
    ∧ stMixed.cells.length ≤ ((doTick env0 heLa 1 stMixed rngZ).1).cells.length :=
  ⟨C8_population_shrinks_only_by_removal.1 env0 heLa 1 1 [freshCell 0] rngZ 1,
   C8_population_shrinks_only_by_removal.2 env0 heLa 1 stMixed rngZ (by decide)⟩

/-- C2 (corrected), counterexample: the constructor accepts any initial
count, so a run seeded with 6000 cells (duration = dt = 1, all-zeros
stream) tracks 6000 > 5000 cells, and its single snapshot reports
`total = 6000`: the population is not bounded by the hard cap. -/
theorem C2_counterexample :
    simulateEndpoint env0 (pHeLa 6000 1 1) rngZ = .ok [freshDp 6000]
    ∧ (freshDp 6000).total = 6000
    ∧ ¬ (freshDp 6000).total ≤ 5000 := by
  refine ⟨?_, ?_, ?_⟩
  · have h := endpoint_fresh 6000
    norm_num [pHeLa] at h ⊢
    exact h
  · simp [freshDp, collect_data]
  · simp [freshDp, collect_data]

/-- C2 (corrected), amended: what the code does guarantee is that a
division trial is only drawn while the tick-start population is strictly
below 5000 (a cell processed with `popLen ≥ 5000` never yields a
daughter), and that every emitted snapshot satisfies
`viable_count ≤ total_count`.  The 0 lower bound is inherent to `ℕ`. -/
theorem C2_amended :
    (∀ (env : Env) (prof : CellLineProfile) (dt : ℚ) (popLen : ℕ) (cell : Cell)
        (rng : Rng) (nid : ℕ), 5000 ≤ popLen →
        (stepCell env prof dt popLen cell rng nid).daughter = none)
    ∧ (∀ (env : Env) (p : SimParams) (rng : Rng) (res : List DataPoint),
        simulateEndpoint env p rng = .ok res →
        ∀ dp ∈ res, dp.viable ≤ dp.total) := by
  constructor
  · exact stepCell_cap_daughter_none
  · intro env p rng res h dp hdp
    unfold simulateEndpoint at h
    cases hinit : CellCultureSimulation.init p rng with
    | error e => rw [hinit] at h; exact Except.noConfusion h
    | ok t =>
        rw [hinit] at h
        unfold CellCultureSimulation.run at h
        dsimp only at h
        by_cases hdt : p.experimentParams.timeInterval = 0
        · rw [if_pos hdt] at h; exact Except.noConfusion h
        · rw [if_neg hdt] at h
          dsimp only at h
          injection h with h'
          subst h'
          refine runFrom_results_mem env t.1.cell_line
            p.experimentParams.timeInterval _ (fun dq => dq.viable ≤ dq.total)
            collect_data_viable_le_total _ 0 t.1 t.2 ?_ dp hdp
          rw [init_results_nil p rng t hinit]
          intro dq hdq
          exact absurd hdq (by simp)

/-- Witness for `C2_amended`: the cap guard at exactly 5000 tracked
cells, and the single snapshot of a one-cell run. -/
theorem C2_amended_witness :
    (stepCell env0 heLa 1 5000 cellW rngZ 9).daughter = none
    ∧ (freshDp 1).viable ≤ (freshDp 1).total :=
  ⟨C2_amended.1 env0 heLa 1 5000 cellW rngZ 9 (le_refl 5000),
   C2_amended.2 env0 (pHeLa 1 1 1) rngZ [freshDp 1] (endpoint_fresh 1)
     (freshDp 1) (by simp)⟩

/-- C3 (corrected), counterexample: construction with
`initial_cell_count = -5`, `duration = -1` and `dt = 0` — all invalid per
the claim — raises nothing: it succeeds, silently seeding zero cells
(`range(-5)` is empty).  No `InvalidConfigurationError` (nor any
validation) exists in the code. -/
theorem C3_counterexample :
    (CellCultureSimulation.init ⟨"HeLa", ⟨-5, -1, 0⟩⟩ rngZ).toOption.map
        (fun t => (t.1.cells.length, t.1.results))
      = some (0, ([] : List DataPoint)) := by
  decide

/-- C3 (corrected), amended: construction fails eagerly only for an
unknown cell-line identifier, with the dictionary `KeyError` (there is no
`ProfileNotFoundError` class); for a known identifier it always succeeds,
seeding `max 0 initial_cell_count` cells with an empty result series, and
the numeric run parameters are not validated at construction — `dt = 0`
only fails later, inside `run`, with a `ZeroDivisionError`. -/
theorem C3_amended :
    (∀ (p : SimParams) (rng : Rng), lookupCellLine p.cellLineName = none →
        CellCultureSimulation.init p rng = .error (.keyError p.cellLineName))
    ∧ (∀ (p : SimParams) (rng : Rng) (prof : CellLineProfile),
        lookupCellLine p.cellLineName = some prof →
        (CellCultureSimulation.init p rng).toOption.map
            (fun t => (t.1.cells.length, t.1.results))
          = some (p.experimentParams.initialCells.toNat, ([] : List DataPoint)))
    ∧ (∀ (env : Env) (st : SimState) (duration : ℚ) (rng : Rng),
        CellCultureSimulation.run env st duration 0 rng
          = .error .zeroDivisionError) := by
  refine ⟨init_err, ?_, ?_⟩
  · intro p rng prof hlk
    rw [init_ok_shape p rng prof hlk]
    show some ((mkInitialCells prof p.experimentParams.initialCells.toNat 0 rng).1.length,
      ([] : List DataPoint)) = _
    rw [mkInitialCells_length]
  · intro env st duration rng
    unfold CellCultureSimulation.run
    rw [if_pos rfl]

/-- Witness for `C3_amended`. -/
theorem C3_amended_witness :
    CellCultureSimulation.init ⟨"NoSuchLine", ⟨5, 1, 1⟩⟩ rngZ
      = .error (.keyError ("NoSuchLine"))
    ∧ (CellCultureSimulation.init ⟨"HeLa", ⟨-7, 1, 1⟩⟩ rngZ).toOption.map
        (fun t => (t.1.cells.length, t.1.results))
      = some (0, ([] : List DataPoint))
    ∧ CellCultureSimulation.run env0 stEmpty 1 0 rngZ = .error .zeroDivisionError :=
  ⟨C3_amended.1 ⟨"NoSuchLine", ⟨5, 1, 1⟩⟩ rngZ (by decide),
   C3_amended.2.1 ⟨"HeLa", ⟨-7, 1, 1⟩⟩ rngZ heLa (by decide),
   C3_amended.2.2 env0 stEmpty 1 rngZ⟩

/-- C6 (confirmed): a snapshot reports `total` as the full tracked count,
`viable` as the count of alive cells, `viability_percent` as
`viable / total × 100`, and `mean_health` / `mean_atp` as arithmetic means
over viable cells only, each branch guarded so that an empty or fully
dead population yields 0 instead of a division by zero. -/
theorem C6_snapshot_formulas (st : SimState) :
    (collect_data st).total = st.cells.length
    ∧ (collect_data st).viable = (st.cells.filter (fun c => c.alive)).length
    ∧ (st.cells.length = 0 →
        (collect_data st).viability = 0 ∧ (collect_data st).avg_health = 0
          ∧ (collect_data st).avg_atp = 0)
    ∧ (st.cells.length ≠ 0 →
        (collect_data st).viability
          = round2 ((((st.cells.filter (fun c => c.alive)).length : ℚ)
              / (st.cells.length : ℚ)) * 100))
    ∧ ((st.cells.filter (fun c => c.alive)).length = 0 →
        (collect_data st).avg_health = 0 ∧ (collect_data st).avg_atp = 0)
    ∧ ((st.cells.filter (fun c => c.alive)).length ≠ 0 →
        (collect_data st).avg_health
          = round3 (((st.cells.filter (fun c => c.alive)).map (fun c => c.health)).sum
              / ((st.cells.filter (fun c => c.alive)).length : ℚ))
        ∧ (collect_data st).avg_atp
          = round3 (((st.cells.filter (fun c => c.alive)).map (fun c => c.atp_level)).sum
              / ((st.cells.filter (fun c => c.alive)).length : ℚ))) := by
  have hr2 : round2 0 = 0 := by decide
  have hr3 : round3 0 = 0 := by decide
  unfold collect_data
  refine ⟨rfl, rfl, ?_, ?_, ?_, ?_⟩
  · intro h0
    have hnil : st.cells = [] := List.length_eq_zero.1 h0
    simp [hnil, hr2, hr3]
  · intro h0
    have hne : st.cells.isEmpty = false := by
      cases hE : st.cells.isEmpty
      · rfl
      · exact absurd (by rw [List.isEmpty_iff.1 hE]; rfl) h0
    simp [hne]
  · intro h0
    have hnil : st.cells.filter (fun c => c.alive) = [] := List.length_eq_zero.1 h0
    simp [hnil, hr3]
  · intro h0
    have hne : (st.cells.filter (fun c => c.alive)).isEmpty = false := by
      cases hE : (st.cells.filter (fun c => c.alive)).isEmpty
      · rfl
      · exact absurd (by rw [List.isEmpty_iff.1 hE]; rfl) h0
    simp [hne]

/-- Witness for `C6_snapshot_formulas` at an empty state (both guards
taken) and at a mixed one-live-one-dead state (both guards not taken). -/
theorem C6_snapshot_formulas_witness :
    ((collect_data stEmpty).viability = 0 ∧ (collect_data stEmpty).avg_health = 0
      ∧ (collect_data stEmpty).avg_atp = 0)
    ∧ (collect_data stMixed).viability
        = round2 ((((stMixed.cells.filter (fun c => c.alive)).length : ℚ)
            / (stMixed.cells.length : ℚ)) * 100)
    ∧ (collect_data stMixed).avg_health
        = round3 (((stMixed.cells.filter (fun c => c.alive)).map (fun c => c.health)).sum
            / ((stMixed.cells.filter (fun c => c.alive)).length : ℚ)) :=
  ⟨(C6_snapshot_formulas stEmpty).2.2.1 rfl,
   (C6_snapshot_formulas stMixed).2.2.2.1 (by decide),
   ((C6_snapshot_formulas stMixed).2.2.2.2.2 (by decide)).1⟩

/-- C7 (confirmed): whenever the per-cell pass produces a daughter, the
daughter sits at squared Euclidean distance `(2.5 × parent.radius)²` from
the parent (exactly, given that cos/sin satisfy the unit-circle identity —
the float tolerance of the claim is not needed over exact rationals), the
parent's `phase_progress` is reset to 0, and the daughter's
`division_count` is the parent's plus one. -/
theorem C7_division_properties (env : Env)
    (htrig : ∀ θ, env.cos θ ^ 2 + env.sin θ ^ 2 = 1)
    (prof : CellLineProfile) (dt : ℚ) (popLen : ℕ) (cell : Cell) (rng : Rng)
    (nid : ℕ) (d : Cell)
    (hd : (stepCell env prof dt popLen cell rng nid).daughter = some d) :
    (d.x - cell.x)^2 + (d.y - cell.y)^2 = ((5/2) * cell.radius)^2
    ∧ (stepCell env prof dt popLen cell rng nid).cell.phase_progress = 0
    ∧ d.division_count = cell.division_count + 1 := by
  have halive : cell.alive = true := by
    cases hb : cell.alive with
    | false =>
        rw [stepCell_dead env prof dt popLen cell rng nid hb] at hd
        exact Option.noConfusion hd
    | true => rfl
  have hphase : (stepCell env prof dt popLen cell rng nid).cell.phase_progress = 0 := by
    rcases stepCell_phase_shape env prof dt popLen cell rng nid halive with ⟨hn, _⟩ | ⟨_, hp⟩
    · rw [hn] at hd; exact Option.noConfusion hd
    · exact hp
  obtain ⟨ang, rng4, hdq⟩ := stepCell_daughter_shape env prof dt popLen cell rng nid d hd
  subst hdq
  refine ⟨?_, hphase, rfl⟩
  show (cell.x + cell.radius * (5/2) * env.cos ang - cell.x)^2
      + (cell.y + cell.radius * (5/2) * env.sin ang - cell.y)^2
    = ((5/2) * cell.radius)^2
  calc (cell.x + cell.radius * (5/2) * env.cos ang - cell.x)^2
      + (cell.y + cell.radius * (5/2) * env.sin ang - cell.y)^2
      = (cell.radius * (5/2))^2 * (env.cos ang ^ 2 + env.sin ang ^ 2) := by ring
    _ = ((5/2) * cell.radius)^2 := by rw [htrig ang]; ring

/-- Witness for `C7_division_properties`: the concrete division of
`cellW` under `env0` (cos ≡ 1, sin ≡ 0) and the all-zeros stream. -/
theorem C7_division_properties_witness :
    (stepCell env0 heLa 1 0 cellW rngZ 9).daughter = some cellWd
    ∧ ((cellWd.x - cellW.x)^2 + (cellWd.y - cellW.y)^2 = ((5/2) * cellW.radius)^2
       ∧ (stepCell env0 heLa 1 0 cellW rngZ 9).cell.phase_progress = 0
       ∧ cellWd.division_count = cellW.division_count + 1) :=
  ⟨by decide,
   C7_division_properties env0 (fun θ => by norm_num [env0]) heLa 1 0 cellW rngZ 9
     cellWd (by decide)⟩

/-- C9 (confirmed): with a valid profile, `0 ≤ duration < dt` gives
`int(duration/dt) = 0`, so `run` performs no tick and the endpoint
returns an empty series with no error. -/
theorem C9_zero_steps (env : Env) (p : SimParams) (rng : Rng)
    (prof : CellLineProfile)
    (hlk : lookupCellLine p.cellLineName = some prof)
    (hdur : 0 ≤ p.experimentParams.duration)
    (hlt : p.experimentParams.duration < p.experimentParams.timeInterval) :
    simulateEndpoint env p rng = .ok []
    ∧ (pyInt (p.experimentParams.duration / p.experimentParams.timeInterval)).toNat
        = 0 := by
  have hdt : 0 < p.experimentParams.timeInterval := lt_of_le_of_lt hdur hlt
  have hq0 : 0 ≤ p.experimentParams.duration / p.experimentParams.timeInterval :=
    div_nonneg hdur hdt.le
  have hq1 : p.experimentParams.duration / p.experimentParams.timeInterval < 1 :=
    (div_lt_one hdt).2 hlt
  have hsteps : (pyInt (p.experimentParams.duration
      / p.experimentParams.timeInterval)).toNat = 0 := by
    rw [pyInt_of_nonneg _ hq0, Int.floor_eq_zero_iff.2 ⟨hq0, hq1⟩]
    rfl
  refine ⟨?_, hsteps⟩
  unfold simulateEndpoint
  rw [init_ok_shape p rng prof hlk]
  dsimp only
  unfold CellCultureSimulation.run
  rw [if_neg (ne_of_gt hdt)]
  dsimp only
  rw [hsteps]
  rfl

/-- Witness for `C9_zero_steps`: 3 cells, duration 1, dt 2. -/
theorem C9_zero_steps_witness :
    simulateEndpoint env0 (pHeLa 3 1 2) rngZ = .ok []
    ∧ (pyInt ((1 : ℚ) / 2)).toNat = 0 :=
  C9_zero_steps env0 (pHeLa 3 1 2) rngZ heLa (by decide)
    (by norm_num [pHeLa]) (by norm_num [pHeLa])

/-- C10 (confirmed): processing one live cell either leaves the daughter
queue empty and advances `phase_progress` by exactly `dt / cycle_length`
(strictly increasing it when `dt > 0`, so an eligible cell stays at
progress ≥ 1 and re-attempts a division trial every tick even when the
trial fails, the cap blocks it, or `can_divide` is unset), or produces a
daughter and resets `phase_progress` to 0 — the only way it ever
decreases. -/
theorem C10_phase_monotone (env : Env) (prof : CellLineProfile) (dt : ℚ)
    (popLen : ℕ) (cell : Cell) (rng : Rng) (nid : ℕ)
    (halive : cell.alive = true) :
    ((stepCell env prof dt popLen cell rng nid).daughter = none →
      (stepCell env prof dt popLen cell rng nid).cell.phase_progress
        = cell.phase_progress + dt / cycleLength prof)
    ∧ ((stepCell env prof dt popLen cell rng nid).daughter.isSome = true →
      (stepCell env prof dt popLen cell rng nid).cell.phase_progress = 0)
    ∧ (0 < dt → 0 < cycleLength prof →
        (stepCell env prof dt popLen cell rng nid).daughter = none →
        cell.phase_progress
          < (stepCell env prof dt popLen cell rng nid).cell.phase_progress) := by
  rcases stepCell_phase_shape env prof dt popLen cell rng nid halive with
    ⟨hn, hp⟩ | ⟨hs, hp⟩
  · refine ⟨fun _ => hp, fun hs => ?_, fun h1 h2 _ => ?_⟩
    · rw [hn] at hs; exact Bool.noConfusion hs
    · rw [hp]
      have := div_pos h1 h2
      linarith
  · refine ⟨fun hn => ?_, fun _ => hp, fun _ _ hn => ?_⟩
    · rw [hn] at hs; exact Bool.noConfusion hs
    · rw [hn] at hs; exact Bool.noConfusion hs

/-- Witness for `C10_phase_monotone`: a fresh live cell with `dt = 1`. -/
theorem C10_phase_monotone_witness :
    (stepCell env0 heLa 1 0 (freshCell 3) rngZ 7).daughter = none
    ∧ (stepCell env0 heLa 1 0 (freshCell 3) rngZ 7).cell.phase_progress
        = (freshCell 3).phase_progress + 1 / cycleLength heLa
    ∧ (freshCell 3).phase_progress
        < (stepCell env0 heLa 1 0 (freshCell 3) rngZ 7).cell.phase_progress := by
  have h := C10_phase_monotone env0 heLa 1 0 (freshCell 3) rngZ 7 rfl
  exact ⟨by decide, h.1 (by decide),
    h.2.2 (by norm_num) (by norm_num [cycleLength, heLa]) (by decide)⟩

/-- C4 (corrected), counterexample: `steps = 399` (duration 399, dt 1)
gives `sample_interval = max(1, 399 // 200) = 1`, so the endpoint emits
399 snapshots — nearly double the claimed ~200-point cap. -/
theorem C4_counterexample :
    (simulateEndpoint env0 (pHeLa 0 399 1) rngZ).toOption.map List.length
      = some 399
    ∧ ¬ (399 : ℕ) ≤ 200 := by
  constructor
  · decide
  · decide

/-- C4 (corrected), amended: `steps = int(duration/dt)` (equal to
`floor(duration/dt)` for the non-negative arguments at hand),
`sample_interval = max(1, steps // 200)`, and the series holds exactly
`ceil(steps / sample_interval) = (steps + si - 1) / si` snapshots.  The
uniform bound over all run lengths is 399 (attained at `steps = 399`),
not ~200. -/
theorem C4_amended (env : Env) (p : SimParams) (rng : Rng)
    (prof : CellLineProfile)
    (hlk : lookupCellLine p.cellLineName = some prof)
    (hdur : 0 ≤ p.experimentParams.duration)
    (hdt : 0 < p.experimentParams.timeInterval) :
    (pyInt (p.experimentParams.duration / p.experimentParams.timeInterval)).toNat
        = ⌊p.experimentParams.duration / p.experimentParams.timeInterval⌋.toNat
    ∧ (simulateEndpoint env p rng).toOption.map List.length
        = some (((pyInt (p.experimentParams.duration
              / p.experimentParams.timeInterval)).toNat
            + max 1 ((pyInt (p.experimentParams.duration
              / p.experimentParams.timeInterval)).toNat / 200) - 1)
            / max 1 ((pyInt (p.experimentParams.duration
              / p.experimentParams.timeInterval)).toNat / 200))
    ∧ ((pyInt (p.experimentParams.duration
              / p.experimentParams.timeInterval)).toNat
            + max 1 ((pyInt (p.experimentParams.duration
              / p.experimentParams.timeInterval)).toNat / 200) - 1)
            / max 1 ((pyInt (p.experimentParams.duration
              / p.experimentParams.timeInterval)).toNat / 200) ≤ 399 := by
  refine ⟨by rw [pyInt_of_nonneg _ (div_nonneg hdur hdt.le)], ?_,
    sample_count_bound _⟩
  unfold simulateEndpoint
  rw [init_ok_shape p rng prof hlk]
  dsimp only
  unfold CellCultureSimulation.run
  rw [if_neg (ne_of_gt hdt)]
  dsimp only
  simp only [Except.toOption, Option.map_some']
  rw [runFrom_results_length]
  rw [length_filter_mod _ (Nat.lt_of_lt_of_le Nat.zero_lt_one (Nat.le_max_left 1 _))]
  simp

/-- Witness for `C4_amended`: duration 5, dt 1/2, so 10 steps sampled
every tick. -/
theorem C4_amended_witness :
    (pyInt ((5 : ℚ) / (1/2))).toNat = ⌊(5 : ℚ) / (1/2)⌋.toNat
    ∧ (simulateEndpoint env0 (pHeLa 2 5 (1/2)) rngZ).toOption.map List.length
        = some (((pyInt ((5 : ℚ) / (1/2))).toNat
            + max 1 ((pyInt ((5 : ℚ) / (1/2))).toNat / 200) - 1)
            / max 1 ((pyInt ((5 : ℚ) / (1/2))).toNat / 200))
    ∧ ((pyInt ((5 : ℚ) / (1/2))).toNat
            + max 1 ((pyInt ((5 : ℚ) / (1/2))).toNat / 200) - 1)
            / max 1 ((pyInt ((5 : ℚ) / (1/2))).toNat / 200) ≤ 399 :=
  C4_amended env0 (pHeLa 2 5 (1/2)) rngZ heLa (by decide)
    (by norm_num [pHeLa]) (by norm_num [pHeLa])

/-- C5 (corrected), counterexample: duration 0.002, dt 0.001 gives two
snapshots whose stored times are `round(0.001, 2) = 0` and
`round(0.002, 2) = 0`: the time series is not strictly increasing, and
neither value equals `tick_index × dt` under either the 1-based (0.001,
0.002) or 0-based (0, 0.001) tick numbering for the second snapshot. -/
theorem C5_counterexample :
    (simulateEndpoint env0 (pHeLa 0 (1/500) (1/1000)) rngZ).toOption.map
        (fun l => l.map (fun dp => dp.time))
      = some [0, 0]
    ∧ ¬ List.Pairwise (fun a b : ℚ => a < b) [(0 : ℚ), 0]
    ∧ (0 : ℚ) ≠ 2 * (1/1000) ∧ (0 : ℚ) ≠ 1 * (1/1000) := by
  refine ⟨by decide, by decide, by norm_num, by norm_num⟩

/-- C5 (corrected), amended: the stored snapshot time is
`round(tick × dt, 2)` for the 1-based index `tick = step + 1` of the
sampled tick; when `dt` is a positive integer multiple of 0.01 the
rounding is exact, the time equals `tick × dt`, and the series is
strictly increasing. -/
theorem C5_amended (env : Env) (p : SimParams) (rng : Rng)
    (prof : CellLineProfile) (m : ℕ) (hm : 0 < m)
    (hdt : p.experimentParams.timeInterval = (m : ℚ) / 100)
    (hlk : lookupCellLine p.cellLineName = some prof) :
    (simulateEndpoint env p rng).toOption.map (List.map (fun dp => dp.time))
      = some (((List.range' 0 ((pyInt (p.experimentParams.duration
              / p.experimentParams.timeInterval)).toNat)).filter
            (fun s => s % (max 1 ((pyInt (p.experimentParams.duration
              / p.experimentParams.timeInterval)).toNat / 200)) = 0)).map
          (fun s : ℕ => ((s : ℚ) + 1) * p.experimentParams.timeInterval))
    ∧ List.Pairwise (fun a b : ℚ => a < b)
        (((List.range' 0 ((pyInt (p.experimentParams.duration
              / p.experimentParams.timeInterval)).toNat)).filter
            (fun s => s % (max 1 ((pyInt (p.experimentParams.duration
              / p.experimentParams.timeInterval)).toNat / 200)) = 0)).map
          (fun s : ℕ => ((s : ℚ) + 1) * p.experimentParams.timeInterval)) := by
  have hdtpos : 0 < p.experimentParams.timeInterval := by
    rw [hdt]; positivity
  constructor
  · unfold simulateEndpoint
    rw [init_ok_shape p rng prof hlk]
    dsimp only
    unfold CellCultureSimulation.run
    rw [if_neg (ne_of_gt hdtpos)]
    dsimp only
    simp only [Except.toOption, Option.map_some']
    rw [runFrom_times env prof p.experimentParams.timeInterval _ _ 0 _ _ (by simp)]
    simp only [List.map_nil, List.nil_append]
    have hmap : (((List.range' 0 ((pyInt (p.experimentParams.duration
            / p.experimentParams.timeInterval)).toNat)).filter
          (fun s => s % (max 1 ((pyInt (p.experimentParams.duration
            / p.experimentParams.timeInterval)).toNat / 200)) = 0)).map
        (fun s : ℕ => round2 (((s : ℚ) + 1) * p.experimentParams.timeInterval)))
        = (((List.range' 0 ((pyInt (p.experimentParams.duration
            / p.experimentParams.timeInterval)).toNat)).filter
          (fun s => s % (max 1 ((pyInt (p.experimentParams.duration
            / p.experimentParams.timeInterval)).toNat / 200)) = 0)).map
        (fun s : ℕ => ((s : ℚ) + 1) * p.experimentParams.timeInterval)) :=
      List.map_congr_left (fun a _ => by rw [hdt, round2_hundredth])
    rw [hmap]
  · refine List.Pairwise.map _ (fun a b hab => ?_)
      ((List.pairwise_lt_range' 0 _).filter _)
    have hq : (a : ℚ) < (b : ℚ) := Nat.cast_lt.2 hab
    exact mul_lt_mul_of_pos_right (add_lt_add_right hq 1) hdtpos

/-- Witness for `C5_amended`: duration 3, dt 1/2 = 50/100, so 6 steps
sampled every tick with times 0.5, 1, ..., 3. -/
theorem C5_amended_witness :
    (simulateEndpoint env0 (pHeLa 0 3 (1/2)) rngZ).toOption.map
        (List.map (fun dp => dp.time))
      = some (((List.range' 0 ((pyInt ((3 : ℚ) / (1/2))).toNat)).filter
            (fun s => s % (max 1 ((pyInt ((3 : ℚ) / (1/2))).toNat / 200)) = 0)).map
          (fun s : ℕ => ((s : ℚ) + 1) * (1/2)))
    ∧ List.Pairwise (fun a b : ℚ => a < b)
        (((List.range' 0 ((pyInt ((3 : ℚ) / (1/2))).toNat)).filter
            (fun s => s % (max 1 ((pyInt ((3 : ℚ) / (1/2))).toNat / 200)) = 0)).map
          (fun s : ℕ => ((s : ℚ) + 1) * (1/2))) :=
  C5_amended env0 (pHeLa 0 3 (1/2)) rngZ heLa 50 (by norm_num)
    (by norm_num [pHeLa]) (by decide)
end UnifiedBackend
